import Mathlib

/-
Shallow embedding of the GPA computation core of the repository
(types/gpa module and the prediction screen), together with theorems
settling the specification claims about it.

Numeric values are embedded as exact rationals: the JavaScript numbers
appearing in the tables (4.0, 3.7, ...) are all exactly representable,
and none of the claims concerns floating-point rounding.
-/

namespace GPAApp

/-- The two grading scales of the application, a closed string union in the source. -/
inductive GPAScale where
  | US
  | AU
deriving DecidableEq, Repr

/-- The weight types a course may carry, a closed string union in the source. -/
inductive WeightType where
  | AP
  | Honours
  | Standard
deriving DecidableEq, Repr

/-- A course record. Optional fields of the source are embedded as Option:
a missing isWeighted behaves like false at the truthiness test, a missing
weightType fails the truthiness test. -/
structure Course where
  id : String
  name : String
  grade : String
  credits : ℚ
  isWeighted : Option Bool
  weightType : Option WeightType
deriving DecidableEq, Repr

/-- A semester groups courses under one scale. -/
structure Semester where
  id : String
  name : String
  term : String
  courses : List Course
  scale : GPAScale
deriving DecidableEq, Repr

/-- The weight multiplier table. -/
structure WeightMultipliers where
  AP : ℚ
  Honours : ℚ
  Standard : ℚ
deriving DecidableEq, Repr

/-- Indexing the multiplier table by a weight type, the bracket lookup of the source. -/
def WeightMultipliers.lookup (m : WeightMultipliers) : WeightType → ℚ
  | WeightType.AP => m.AP
  | WeightType.Honours => m.Honours
  | WeightType.Standard => m.Standard

/-- DEFAULT_WEIGHT_MULTIPLIERS from the source. -/
def DEFAULT_WEIGHT_MULTIPLIERS : WeightMultipliers :=
  { AP := 1, Honours := 1/2, Standard := 0 }

/-- US_GRADES from the source. -/
def US_GRADES : List String :=
  ["A", "A-", "B+", "B", "B-", "C+", "C", "C-", "D+", "D", "D-", "F"]

/-- AU_GRADES from the source. -/
def AU_GRADES : List String :=
  ["HD", "D", "C", "P", "F"]

/-- US_GRADE_POINTS from the source: the record is embedded as a partial
lookup function, none meaning the key is absent. -/
def US_GRADE_POINTS : String → Option ℚ
  | "A" => some 4
  | "A-" => some (37/10)
  | "B+" => some (33/10)
  | "B" => some 3
  | "B-" => some (27/10)
  | "C+" => some (23/10)
  | "C" => some 2
  | "C-" => some (17/10)
  | "D+" => some (13/10)
  | "D" => some 1
  | "D-" => some (7/10)
  | "F" => some 0
  | _ => none

/-- AU_GRADE_POINTS from the source. -/
def AU_GRADE_POINTS : String → Option ℚ
  | "HD" => some 7
  | "D" => some 6
  | "C" => some 5
  | "P" => some 4
  | "F" => some 0
  | _ => none

/-- US_CREDIT_OPTIONS from the source. -/
def US_CREDIT_OPTIONS : List ℚ := [1, 2, 3, 4, 5, 6]

/-- AU_CREDIT_OPTIONS from the source. -/
def AU_CREDIT_OPTIONS : List ℚ := [10, 20]

/-- One entry of SCALE_CONFIG. -/
structure ScaleConfig where
  grades : List String
  points : String → Option ℚ
  max : ℚ
  weightedMax : ℚ
  label : String
  creditLabel : String
  creditOptions : List ℚ
  gpaLabel : String

/-- SCALE_CONFIG from the source. -/
def SCALE_CONFIG : GPAScale → ScaleConfig
  | GPAScale.US =>
    { grades := US_GRADES
      points := US_GRADE_POINTS
      max := 4
      weightedMax := 5
      label := "US (4.0)"
      creditLabel := "Credit Hours"
      creditOptions := US_CREDIT_OPTIONS
      gpaLabel := "GPA (4.0 scale)" }
  | GPAScale.AU =>
    { grades := AU_GRADES
      points := AU_GRADE_POINTS
      max := 7
      weightedMax := 7
      label := "AU (7.0)"
      creditLabel := "Credit Points"
      creditOptions := AU_CREDIT_OPTIONS
      gpaLabel := "GPA (7.0 scale)" }

/-- The effective grade point of one course inside calculateGPA: the base
point is the table lookup with ?? 0, and the weighting bonus is added when
useWeighting, the isWeighted flag, the weightType field and the US scale
all test true. -/
def gradePoint (scale : GPAScale) (useWeighting : Bool)
    (multipliers : WeightMultipliers) (course : Course) : ℚ :=
  let baseGradePoint : ℚ := ((SCALE_CONFIG scale).points course.grade).getD 0
  match course.weightType with
  | some weightType =>
    if useWeighting && course.isWeighted.getD false && (scale == GPAScale.US) then
      baseGradePoint + multipliers.lookup weightType
    else
      baseGradePoint
  | none => baseGradePoint

/-- calculateGPA from the source: early return 0 on the empty list, a fold
accumulating totalPoints and totalCredits over the courses, and the final
guarded division. -/
def calculateGPA (courses : List Course) (scale : GPAScale)
    (useWeighting : Bool) (multipliers : WeightMultipliers) : ℚ :=
  if courses = [] then 0
  else
    let totals : ℚ × ℚ :=
      courses.foldl
        (fun acc course =>
          (acc.1 + gradePoint scale useWeighting multipliers course * course.credits,
           acc.2 + course.credits))
        (0, 0)
    if 0 < totals.2 then totals.1 / totals.2 else 0

/-- calculateCumulativeGPA from the source: flatten the semesters, early
return 0 when no course exists, take the scale of the first semester
(falling back to US on the empty list) and delegate to calculateGPA. -/
def calculateCumulativeGPA (semesters : List Semester)
    (useWeighting : Bool) (multipliers : WeightMultipliers) : ℚ :=
  let allCourses := semesters.flatMap fun s => s.courses
  if allCourses = [] then 0
  else
    let scale :=
      match semesters.head? with
      | some s => s.scale
      | none => GPAScale.US
    calculateGPA allCourses scale useWeighting multipliers

/-- A prediction course of the prediction screen. -/
structure PredictionCourse where
  id : String
  name : String
  expectedGrade : String
  credits : ℚ
deriving DecidableEq, Repr

/-- The mapping of a prediction course to a course performed inside
calculateProjectedGPA: expectedGrade becomes the grade, the weighting
fields stay unset. -/
def PredictionCourse.toCourse (c : PredictionCourse) : Course :=
  { id := c.id
    name := c.name
    grade := c.expectedGrade
    credits := c.credits
    isWeighted := none
    weightType := none }

/-- calculateProjectedGPA from the prediction screen. The two text inputs
are embedded as Option rationals: none stands for a missing or unparseable
input, i.e. a NaN result of parseFloat, so every isNaN test of the source
becomes a match on the option. -/
def calculateProjectedGPA (currentGPA : Option ℚ) (currentCredits : Option ℚ)
    (courses : List PredictionCourse) (scale : GPAScale) : ℚ :=
  if courses = [] then
    match currentGPA with
    | none => 0
    | some currentGPAValue => currentGPAValue
  else
    let futureCourses := courses.map PredictionCourse.toCourse
    let futureGPA := calculateGPA futureCourses scale false DEFAULT_WEIGHT_MULTIPLIERS
    let futureCredits := futureCourses.foldl (fun sum c => sum + c.credits) 0
    match currentGPA, currentCredits with
    | some currentGPAValue, some currentCreditsValue =>
      if 0 < currentCreditsValue then
        let totalPoints := currentGPAValue * currentCreditsValue + futureGPA * futureCredits
        let totalCredits := currentCreditsValue + futureCredits
        if 0 < totalCredits then totalPoints / totalCredits else 0
      else
        futureGPA
    | _, _ => futureGPA

/-- Modelled from the spec: getWeightedGPACap is imported by the semester
screens from the types module, but the file defining it is absent from the
repository snapshot, which holds only its callers. Following the contract
of the spec, section 4.4: at least one AP course gives the weighted
maximum of the scale, otherwise at least one Honours course gives the
unweighted maximum plus the Honours multiplier, otherwise the unweighted
maximum. The callers apply it to US courses and the signature carries no
scale, so the US configuration and the default multipliers are used. -/
def getWeightedGPACap (courses : List Course) : ℚ :=
  if courses.any fun c => c.weightType == some WeightType.AP then
    (SCALE_CONFIG GPAScale.US).weightedMax
  else if courses.any fun c => c.weightType == some WeightType.Honours then
    (SCALE_CONFIG GPAScale.US).max + DEFAULT_WEIGHT_MULTIPLIERS.Honours
  else
    (SCALE_CONFIG GPAScale.US).max

/-- The sum of effective grade points times credits over a course list,
the value the totalPoints accumulator of calculateGPA reaches. -/
def totalPointsOf (courses : List Course) (scale : GPAScale)
    (useWeighting : Bool) (multipliers : WeightMultipliers) : ℚ :=
  (courses.map fun c => gradePoint scale useWeighting multipliers c * c.credits).sum

/-- The sum of credits over a course list, the value the totalCredits
accumulator of calculateGPA reaches. -/
def totalCreditsOf (courses : List Course) : ℚ :=
  (courses.map fun c => c.credits).sum

/-- The grade point table entry of a grade under a scale, with absent
entries read as 0. -/
def points (scale : GPAScale) (grade : String) : ℚ :=
  ((SCALE_CONFIG scale).points grade).getD 0

/-- The effective per-course point as the spec words it: the table entry
(0 when absent), plus the multiplier of the weight type exactly when
useWeighting holds, the course is weighted, a weight type is present and
the scale is US. -/
def effectivePoint (scale : GPAScale) (useWeighting : Bool)
    (multipliers : WeightMultipliers) (c : Course) : ℚ :=
  points scale c.grade +
    (if useWeighting = true ∧ c.isWeighted.getD false = true ∧
        c.weightType.isSome = true ∧ scale = GPAScale.US
     then multipliers.lookup (c.weightType.getD WeightType.Standard)
     else 0)

/-- The GPA of the expected courses as the prediction screen computes it:
unweighted, under the default multipliers. -/
def futureGPAOf (courses : List PredictionCourse) (scale : GPAScale) : ℚ :=
  calculateGPA (courses.map PredictionCourse.toCourse) scale false DEFAULT_WEIGHT_MULTIPLIERS

/-- The credit sum of the expected courses. -/
def futureCreditsOf (courses : List PredictionCourse) : ℚ :=
  (courses.map fun c => c.credits).sum

/- Concrete records used by witnesses and counterexamples. -/

def usCourseA3 : Course :=
  { id := "c1", name := "Algebra", grade := "A", credits := 3,
    isWeighted := none, weightType := none }

def usCourseB3 : Course :=
  { id := "c2", name := "Biology", grade := "B", credits := 3,
    isWeighted := none, weightType := none }

def usCourseA1 : Course :=
  { id := "c3", name := "Chemistry", grade := "A", credits := 1,
    isWeighted := none, weightType := none }

def usCourseX3 : Course :=
  { id := "c4", name := "Drama", grade := "X", credits := 3,
    isWeighted := none, weightType := none }

def usCourseZeroCredits : Course :=
  { id := "c5", name := "Economics", grade := "A", credits := 0,
    isWeighted := none, weightType := none }

def auCourseHD : Course :=
  { id := "c6", name := "Mathematics", grade := "HD", credits := 10,
    isWeighted := some true, weightType := some WeightType.AP }

def apCourse : Course :=
  { id := "c7", name := "AP Biology", grade := "A", credits := 3,
    isWeighted := some true, weightType := some WeightType.AP }

def honoursCourse : Course :=
  { id := "c8", name := "Honours English", grade := "A-", credits := 3,
    isWeighted := some true, weightType := some WeightType.Honours }

def predictionCourseA3 : PredictionCourse :=
  { id := "p1", name := "Future course", expectedGrade := "A", credits := 3 }

/- Helper lemmas. -/

/-- The accumulator fold of calculateGPA computes the pair of sums. -/
theorem foldl_totals (courses : List Course) (scale : GPAScale)
    (useWeighting : Bool) (multipliers : WeightMultipliers) (p : ℚ × ℚ) :
    courses.foldl
        (fun acc course =>
          (acc.1 + gradePoint scale useWeighting multipliers course * course.credits,
           acc.2 + course.credits))
        p
      = (p.1 + totalPointsOf courses scale useWeighting multipliers,
         p.2 + totalCreditsOf courses) := by
  induction courses generalizing p with
  | nil => simp [totalPointsOf, totalCreditsOf]
  | cons c cs ih =>
    simp only [List.foldl_cons, ih, totalPointsOf, totalCreditsOf,
      List.map_cons, List.sum_cons, Prod.mk.injEq]
    constructor <;> ring

/-- calculateGPA as a guarded ratio of the two sums. -/
theorem calculateGPA_eq_div (courses : List Course) (scale : GPAScale)
    (useWeighting : Bool) (multipliers : WeightMultipliers) :
    calculateGPA courses scale useWeighting multipliers
      = if 0 < totalCreditsOf courses
        then totalPointsOf courses scale useWeighting multipliers / totalCreditsOf courses
        else 0 := by
  rcases courses with _ | ⟨c, cs⟩
  · simp [calculateGPA, totalPointsOf, totalCreditsOf]
  · simp only [calculateGPA, reduceCtorEq, if_false, foldl_totals, zero_add]

/-- Without weighting the effective point is the table entry. -/
theorem gradePoint_false (scale : GPAScale) (multipliers : WeightMultipliers)
    (c : Course) :
    gradePoint scale false multipliers c = points scale c.grade := by
  rcases c with ⟨id, name, grade, credits, iw, wt⟩
  cases wt <;> simp [gradePoint, points]

/-- The source conditional of gradePoint agrees with the spec wording. -/
theorem gradePoint_eq_effectivePoint (scale : GPAScale) (useWeighting : Bool)
    (multipliers : WeightMultipliers) (c : Course) :
    gradePoint scale useWeighting multipliers c
      = effectivePoint scale useWeighting multipliers c := by
  rcases c with ⟨id, name, grade, credits, iw, wt⟩
  cases wt with
  | none => simp [gradePoint, effectivePoint, points]
  | some w =>
    by_cases hu : useWeighting = true <;>
      by_cases hw : iw.getD false = true <;>
        by_cases hs : scale = GPAScale.US <;>
          simp [gradePoint, effectivePoint, points, hu, hw, hs]

/-- The US table entries all lie between 0 and 4. -/
theorem US_points_bounds (g : String) :
    0 ≤ (US_GRADE_POINTS g).getD 0 ∧ (US_GRADE_POINTS g).getD 0 ≤ 4 := by
  unfold US_GRADE_POINTS
  split <;> norm_num

/-- The AU table entries all lie between 0 and 7. -/
theorem AU_points_bounds (g : String) :
    0 ≤ (AU_GRADE_POINTS g).getD 0 ∧ (AU_GRADE_POINTS g).getD 0 ≤ 7 := by
  unfold AU_GRADE_POINTS
  split <;> norm_num

/-- Every grade point, known or defaulted, lies between 0 and the scale maximum. -/
theorem points_bounds (scale : GPAScale) (g : String) :
    0 ≤ points scale g ∧ points scale g ≤ (SCALE_CONFIG scale).max := by
  cases scale
  · simpa [points, SCALE_CONFIG] using US_points_bounds g
  · simpa [points, SCALE_CONFIG] using AU_points_bounds g

/-- The point sum of an unweighted computation is between 0 and the scale
maximum times the credit sum, when no credit is negative. -/
theorem totalPoints_bounds (courses : List Course) (scale : GPAScale)
    (multipliers : WeightMultipliers) (hpos : ∀ c ∈ courses, 0 ≤ c.credits) :
    0 ≤ totalPointsOf courses scale false multipliers ∧
    totalPointsOf courses scale false multipliers
      ≤ (SCALE_CONFIG scale).max * totalCreditsOf courses := by
  induction courses with
  | nil => simp [totalPointsOf, totalCreditsOf]
  | cons c cs ih =>
    have hc : 0 ≤ c.credits := hpos c (by simp)
    have ih2 := ih fun x hx => hpos x (by simp [hx])
    have hp := points_bounds scale c.grade
    simp only [totalPointsOf, totalCreditsOf, List.map_cons, List.sum_cons,
      gradePoint_false] at ih2 ⊢
    constructor
    · have h1 : 0 ≤ points scale c.grade * c.credits := mul_nonneg hp.1 hc
      linarith [ih2.1]
    · have h1 : points scale c.grade * c.credits ≤ (SCALE_CONFIG scale).max * c.credits :=
        mul_le_mul_of_nonneg_right hp.2 hc
      have h2 : (SCALE_CONFIG scale).max * (c.credits + (cs.map fun x => x.credits).sum)
          = (SCALE_CONFIG scale).max * c.credits
            + (SCALE_CONFIG scale).max * (cs.map fun x => x.credits).sum := by ring
      linarith [ih2.2]

/-- A credit sum over courses with nonnegative credits is nonnegative. -/
theorem totalCredits_nonneg (courses : List Course)
    (hpos : ∀ c ∈ courses, 0 ≤ c.credits) : 0 ≤ totalCreditsOf courses := by
  refine List.sum_nonneg ?_
  intro x hx
  obtain ⟨a, ha, rfl⟩ := List.mem_map.mp hx
  exact hpos a ha

/-- A credit sum over a nonempty course list with positive credits is positive. -/
theorem totalCredits_pos (courses : List Course) (hne : courses ≠ [])
    (hpos : ∀ c ∈ courses, 0 < c.credits) : 0 < totalCreditsOf courses := by
  rcases courses with _ | ⟨c, cs⟩
  · exact absurd rfl hne
  · have hc := hpos c (by simp)
    have hcs : 0 ≤ totalCreditsOf cs :=
      totalCredits_nonneg cs fun x hx => le_of_lt (hpos x (by simp [hx]))
    simp only [totalCreditsOf, List.map_cons, List.sum_cons] at *
    linarith

/-- The credit fold of the prediction screen computes the credit sum. -/
theorem foldl_credits (l : List Course) (p : ℚ) :
    l.foldl (fun sum c => sum + c.credits) p = p + totalCreditsOf l := by
  induction l generalizing p with
  | nil => simp [totalCreditsOf]
  | cons c cs ih =>
    simp only [List.foldl_cons, ih, totalCreditsOf, List.map_cons, List.sum_cons]
    ring

/- Claim theorems. -/

/-- C1: for every course list whose credits sum to a positive value,
calculateGPA returns exactly the sum over courses of effective point times
credits, divided by the sum of credits; the effective point is the table
entry of the grade (0 when absent), plus the multiplier of the weight type
exactly when useWeighting, the isWeighted flag, a present weightType and
the US scale all hold. The witness instantiates the motivating example
with value 3.5. -/
theorem calculateGPA_credit_mean (courses : List Course) (scale : GPAScale)
    (useWeighting : Bool) (multipliers : WeightMultipliers)
    (h : 0 < totalCreditsOf courses) :
    calculateGPA courses scale useWeighting multipliers
      = (courses.map fun c =>
          effectivePoint scale useWeighting multipliers c * c.credits).sum
        / totalCreditsOf courses := by
  rw [calculateGPA_eq_div, if_pos h]
  congr 1
  simp [totalPointsOf, gradePoint_eq_effectivePoint]

/-- Witness for C1 on the motivating example, with value 3.5. -/
theorem calculateGPA_credit_mean_witness :
    0 < totalCreditsOf [usCourseA3, usCourseB3] ∧
    calculateGPA [usCourseA3, usCourseB3] GPAScale.US false DEFAULT_WEIGHT_MULTIPLIERS
      = ([usCourseA3, usCourseB3].map fun c =>
          effectivePoint GPAScale.US false DEFAULT_WEIGHT_MULTIPLIERS c * c.credits).sum
        / totalCreditsOf [usCourseA3, usCourseB3] ∧
    calculateGPA [usCourseA3, usCourseB3] GPAScale.US false DEFAULT_WEIGHT_MULTIPLIERS
      = 7/2 := by
  have hpos : 0 < totalCreditsOf [usCourseA3, usCourseB3] := by
    simp only [totalCreditsOf, usCourseA3, usCourseB3, List.map_cons, List.map_nil,
      List.sum_cons, List.sum_nil]
    norm_num
  refine ⟨hpos, calculateGPA_credit_mean _ _ _ _ hpos, ?_⟩
  simp only [calculateGPA, gradePoint, usCourseA3, usCourseB3, SCALE_CONFIG,
    US_GRADE_POINTS, DEFAULT_WEIGHT_MULTIPLIERS, List.foldl, reduceCtorEq, if_false]
  norm_num

/-- C2: the cumulative GPA of an empty semester list is 0, and for a
nonempty semester list it is calculateGPA applied to the concatenation of
the semester course lists in order, under the scale of the first semester
and the same useWeighting and multipliers. -/
theorem calculateCumulativeGPA_flattens :
    (∀ (useWeighting : Bool) (multipliers : WeightMultipliers),
      calculateCumulativeGPA [] useWeighting multipliers = 0) ∧
    (∀ (s : Semester) (rest : List Semester) (useWeighting : Bool)
        (multipliers : WeightMultipliers),
      calculateCumulativeGPA (s :: rest) useWeighting multipliers
        = calculateGPA ((s :: rest).flatMap fun t => t.courses) s.scale
            useWeighting multipliers) := by
  constructor
  · intro u m
    rfl
  · intro s rest u m
    show (if ((s :: rest).flatMap fun t => t.courses) = [] then (0 : ℚ) else _) = _
    by_cases h : ((s :: rest).flatMap fun t => t.courses) = []
    · rw [if_pos h, h]
      simp [calculateGPA]
    · rw [if_neg h]
      rfl

/-- C6: calculateGPA of the empty course list is 0 under every scale, and
of any nonempty course list whose credits sum to zero is 0 as well,
guarding the division. -/
theorem calculateGPA_zero_guard :
    (∀ (scale : GPAScale) (useWeighting : Bool) (multipliers : WeightMultipliers),
      calculateGPA [] scale useWeighting multipliers = 0) ∧
    (∀ (courses : List Course) (scale : GPAScale) (useWeighting : Bool)
        (multipliers : WeightMultipliers),
      courses ≠ [] → totalCreditsOf courses = 0 →
      calculateGPA courses scale useWeighting multipliers = 0) := by
  constructor
  · intro scale u m
    rfl
  · intro courses scale u m hne hz
    rw [calculateGPA_eq_div, hz]
    norm_num

/-- Witness for C6 on a one-course list with zero credits. -/
theorem calculateGPA_zero_guard_witness :
    [usCourseZeroCredits] ≠ [] ∧
    totalCreditsOf [usCourseZeroCredits] = 0 ∧
    calculateGPA [usCourseZeroCredits] GPAScale.US false DEFAULT_WEIGHT_MULTIPLIERS
      = 0 := by
  have hz : totalCreditsOf [usCourseZeroCredits] = 0 := by
    simp [totalCreditsOf, usCourseZeroCredits]
  exact ⟨by simp, hz,
    calculateGPA_zero_guard.2 [usCourseZeroCredits] GPAScale.US false
      DEFAULT_WEIGHT_MULTIPLIERS (by simp) hz⟩

/-- C10: with useWeighting false the multiplier table has no influence on
calculateGPA at all. -/
theorem calculateGPA_ignores_multipliers_unweighted (courses : List Course)
    (scale : GPAScale) (m1 m2 : WeightMultipliers) :
    calculateGPA courses scale false m1 = calculateGPA courses scale false m2 := by
  rw [calculateGPA_eq_div, calculateGPA_eq_div]
  have h : totalPointsOf courses scale false m1 = totalPointsOf courses scale false m2 := by
    simp [totalPointsOf, gradePoint_false]
  rw [h]

/-- Under the default multipliers, a course that is not a US weighted
course of non-Standard type gets the same effective point with and
without the weighting flag. -/
theorem gradePoint_default_noop (scale : GPAScale) (c : Course)
    (h : ¬(scale = GPAScale.US ∧ c.isWeighted.getD false = true ∧
        ∃ w, c.weightType = some w ∧ w ≠ WeightType.Standard)) :
    gradePoint scale true DEFAULT_WEIGHT_MULTIPLIERS c
      = gradePoint scale false DEFAULT_WEIGHT_MULTIPLIERS c := by
  rcases c with ⟨id, name, grade, credits, iw, wt⟩
  cases wt with
  | none => simp [gradePoint]
  | some w =>
    by_cases hs : scale = GPAScale.US
    · by_cases hw : iw.getD false = true
      · have hstd : w = WeightType.Standard := by
          by_contra hne
          exact h ⟨hs, hw, w, rfl, hne⟩
        subst hstd
        subst hs
        simp [gradePoint, hw, DEFAULT_WEIGHT_MULTIPLIERS, WeightMultipliers.lookup]
      · simp [gradePoint, hw]
    · simp [gradePoint, hs]

/-- C4: under the default multipliers, flipping useWeighting is a no-op on
calculateGPA for every course list containing no US-scale course with the
isWeighted flag and a non-Standard weight type; in particular for every
all-AU course list. -/
theorem useWeighting_noop (courses : List Course) (scale : GPAScale)
    (h : ∀ c ∈ courses, ¬(scale = GPAScale.US ∧ c.isWeighted.getD false = true ∧
        ∃ w, c.weightType = some w ∧ w ≠ WeightType.Standard)) :
    calculateGPA courses scale true DEFAULT_WEIGHT_MULTIPLIERS
      = calculateGPA courses scale false DEFAULT_WEIGHT_MULTIPLIERS := by
  rw [calculateGPA_eq_div, calculateGPA_eq_div]
  have hp : totalPointsOf courses scale true DEFAULT_WEIGHT_MULTIPLIERS
      = totalPointsOf courses scale false DEFAULT_WEIGHT_MULTIPLIERS := by
    unfold totalPointsOf
    congr 1
    refine List.map_congr_left ?_
    intro c hc
    rw [gradePoint_default_noop scale c (h c hc)]
  rw [hp]

/-- Witness for C4 on a one-course all-AU list carrying an AP weight flag. -/
theorem useWeighting_noop_witness :
    calculateGPA [auCourseHD] GPAScale.AU true DEFAULT_WEIGHT_MULTIPLIERS
      = calculateGPA [auCourseHD] GPAScale.AU false DEFAULT_WEIGHT_MULTIPLIERS :=
  useWeighting_noop [auCourseHD] GPAScale.AU (by
    intro c hc
    simp only [List.mem_singleton] at hc
    subst hc
    simp [auCourseHD])

/-- C5: getWeightedGPACap returns the US weighted maximum whenever some
course has the AP weight type, regardless of the other courses; the US
maximum plus the Honours multiplier when some course has the Honours
weight type and none has AP; and the US unweighted maximum when no course
has either weight type. -/
theorem getWeightedGPACap_cases (courses : List Course) :
    ((∃ c ∈ courses, c.weightType = some WeightType.AP) →
      getWeightedGPACap courses = (SCALE_CONFIG GPAScale.US).weightedMax) ∧
    ((¬∃ c ∈ courses, c.weightType = some WeightType.AP) →
      (∃ c ∈ courses, c.weightType = some WeightType.Honours) →
      getWeightedGPACap courses
        = (SCALE_CONFIG GPAScale.US).max + DEFAULT_WEIGHT_MULTIPLIERS.Honours) ∧
    ((∀ c ∈ courses, c.weightType ≠ some WeightType.AP ∧
        c.weightType ≠ some WeightType.Honours) →
      getWeightedGPACap courses = (SCALE_CONFIG GPAScale.US).max) := by
  refine ⟨?_, ?_, ?_⟩
  · intro h
    have hap : (courses.any fun c => c.weightType == some WeightType.AP) = true := by
      simpa [List.any_eq_true] using h
    simp [getWeightedGPACap, hap]
  · intro hnap hhon
    have hap : (courses.any fun c => c.weightType == some WeightType.AP) = false := by
      simpa [List.any_eq_false] using hnap
    have hh : (courses.any fun c => c.weightType == some WeightType.Honours) = true := by
      simpa [List.any_eq_true] using hhon
    simp [getWeightedGPACap, hap, hh]
  · intro h
    have hap : (courses.any fun c => c.weightType == some WeightType.AP) = false := by
      simp only [List.any_eq_false]
      intro c hc
      simpa using (h c hc).1
    have hh : (courses.any fun c => c.weightType == some WeightType.Honours) = false := by
      simp only [List.any_eq_false]
      intro c hc
      simpa using (h c hc).2
    simp [getWeightedGPACap, hap, hh]

/-- Witness for C5: an AP course forces the cap 5 even next to an Honours
course. -/
theorem getWeightedGPACap_cases_witness :
    getWeightedGPACap [apCourse, honoursCourse] = 5 := by
  have h := (getWeightedGPACap_cases [apCourse, honoursCourse]).1
    ⟨apCourse, by simp, by simp [apCourse]⟩
  simpa [SCALE_CONFIG] using h

/-- C7: a course whose grade is absent from the table of its scale
contributes nothing to the point sum of an unweighted calculateGPA call,
while its credits still enter the credit sum in the denominator. -/
theorem unknown_grade_contributes_zero (scale : GPAScale)
    (multipliers : WeightMultipliers) (l1 l2 : List Course) (c : Course)
    (hg : (SCALE_CONFIG scale).points c.grade = none)
    (h : 0 < totalCreditsOf (l1 ++ c :: l2)) :
    totalCreditsOf (l1 ++ c :: l2) = totalCreditsOf (l1 ++ l2) + c.credits ∧
    calculateGPA (l1 ++ c :: l2) scale false multipliers
      = totalPointsOf (l1 ++ l2) scale false multipliers
        / totalCreditsOf (l1 ++ c :: l2) := by
  have hc : gradePoint scale false multipliers c = 0 := by
    rw [gradePoint_false]
    simp [points, hg]
  constructor
  · simp only [totalCreditsOf, List.map_append, List.sum_append, List.map_cons,
      List.sum_cons]
    ring
  · rw [calculateGPA_eq_div, if_pos h]
    congr 1
    simp [totalPointsOf, List.map_append, List.sum_append, hc]

/-- Witness for C7 with the unknown grade X next to a known course. -/
theorem unknown_grade_contributes_zero_witness :
    (SCALE_CONFIG GPAScale.US).points usCourseX3.grade = none ∧
    0 < totalCreditsOf ([] ++ usCourseX3 :: [usCourseA3]) ∧
    calculateGPA ([] ++ usCourseX3 :: [usCourseA3]) GPAScale.US false
        DEFAULT_WEIGHT_MULTIPLIERS
      = totalPointsOf ([] ++ [usCourseA3]) GPAScale.US false DEFAULT_WEIGHT_MULTIPLIERS
        / totalCreditsOf ([] ++ usCourseX3 :: [usCourseA3]) := by
  have hg : (SCALE_CONFIG GPAScale.US).points usCourseX3.grade = none := rfl
  have h : 0 < totalCreditsOf ([] ++ usCourseX3 :: [usCourseA3]) := by
    simp only [List.nil_append, totalCreditsOf, usCourseX3, usCourseA3, List.map_cons,
      List.map_nil, List.sum_cons, List.sum_nil]
    norm_num
  exact ⟨hg, h,
    (unknown_grade_contributes_zero GPAScale.US DEFAULT_WEIGHT_MULTIPLIERS [] [usCourseA3]
      usCourseX3 hg h).2⟩

/-- With a constant grade the point sum is that grade point times the
credit sum. -/
theorem totalPoints_same_grade (scale : GPAScale) (g : String)
    (courses : List Course) (multipliers : WeightMultipliers)
    (hg : ∀ c ∈ courses, c.grade = g) :
    totalPointsOf courses scale false multipliers
      = points scale g * totalCreditsOf courses := by
  induction courses with
  | nil => simp [totalPointsOf, totalCreditsOf]
  | cons c cs ih =>
    have h1 : c.grade = g := hg c (by simp)
    have ih2 := ih fun x hx => hg x (by simp [hx])
    simp only [totalPointsOf, totalCreditsOf, List.map_cons, List.sum_cons,
      gradePoint_false] at ih2 ⊢
    rw [h1, ih2]
    ring

/-- C8: a nonempty course list with one common grade and positive credits
evaluates, unweighted, to exactly the table point of that grade, whatever
the individual credit values are. -/
theorem same_grade_constant (scale : GPAScale) (g : String) (courses : List Course)
    (hne : courses ≠ []) (hg : ∀ c ∈ courses, c.grade = g)
    (hpos : ∀ c ∈ courses, 0 < c.credits) :
    calculateGPA courses scale false DEFAULT_WEIGHT_MULTIPLIERS = points scale g := by
  have hT : 0 < totalCreditsOf courses := totalCredits_pos courses hne hpos
  rw [calculateGPA_eq_div, if_pos hT,
    totalPoints_same_grade scale g courses DEFAULT_WEIGHT_MULTIPLIERS hg,
    mul_div_assoc, div_self (ne_of_gt hT), mul_one]

/-- Witness for C8 on two A-graded courses of different credit values. -/
theorem same_grade_constant_witness :
    calculateGPA [usCourseA3, usCourseA1] GPAScale.US false DEFAULT_WEIGHT_MULTIPLIERS
      = points GPAScale.US "A" ∧
    points GPAScale.US "A" = 4 := by
  refine ⟨same_grade_constant GPAScale.US "A" _ (by simp) ?_ ?_, ?_⟩
  · intro c hc
    simp only [List.mem_cons, List.mem_singleton, List.not_mem_nil, or_false] at hc
    rcases hc with rfl | rfl <;> rfl
  · intro c hc
    simp only [List.mem_cons, List.mem_singleton, List.not_mem_nil, or_false] at hc
    rcases hc with rfl | rfl <;> norm_num [usCourseA3, usCourseA1]
  · norm_num [points, SCALE_CONFIG, US_GRADE_POINTS]

/-- C9: an unweighted calculateGPA over courses with positive credits lies
between 0 and the unweighted maximum of the scale. -/
theorem calculateGPA_unweighted_bounds (courses : List Course) (scale : GPAScale)
    (multipliers : WeightMultipliers) (hpos : ∀ c ∈ courses, 0 < c.credits) :
    0 ≤ calculateGPA courses scale false multipliers ∧
    calculateGPA courses scale false multipliers ≤ (SCALE_CONFIG scale).max := by
  have hmax : 0 ≤ (SCALE_CONFIG scale).max := by
    cases scale <;> norm_num [SCALE_CONFIG]
  rw [calculateGPA_eq_div]
  by_cases hT : 0 < totalCreditsOf courses
  · rw [if_pos hT]
    have hb := totalPoints_bounds courses scale multipliers
      fun c hc => le_of_lt (hpos c hc)
    exact ⟨div_nonneg hb.1 (le_of_lt hT), (div_le_iff₀ hT).mpr hb.2⟩
  · rw [if_neg hT]
    exact ⟨le_refl 0, hmax⟩

/-- Witness for C9 on a two-course US list. -/
theorem calculateGPA_unweighted_bounds_witness :
    0 ≤ calculateGPA [usCourseA3, usCourseB3] GPAScale.US false
        DEFAULT_WEIGHT_MULTIPLIERS ∧
    calculateGPA [usCourseA3, usCourseB3] GPAScale.US false DEFAULT_WEIGHT_MULTIPLIERS
      ≤ (SCALE_CONFIG GPAScale.US).max :=
  calculateGPA_unweighted_bounds [usCourseA3, usCourseB3] GPAScale.US
    DEFAULT_WEIGHT_MULTIPLIERS (by
      intro c hc
      simp only [List.mem_cons, List.mem_singleton, List.not_mem_nil, or_false] at hc
      rcases hc with rfl | rfl <;> norm_num [usCourseA3, usCourseB3])

/-- The predicted courses keep their credits when mapped to courses. -/
theorem futureCredits_eq (courses : List PredictionCourse) :
    totalCreditsOf (courses.map PredictionCourse.toCourse) = futureCreditsOf courses := by
  unfold totalCreditsOf futureCreditsOf
  rw [List.map_map]
  rfl

/-- The credit sum of predicted courses with positive credits is nonnegative. -/
theorem futureCredits_nonneg (courses : List PredictionCourse)
    (hpos : ∀ c ∈ courses, 0 < c.credits) : 0 ≤ futureCreditsOf courses := by
  refine List.sum_nonneg ?_
  intro x hx
  obtain ⟨a, ha, rfl⟩ := List.mem_map.mp hx
  exact le_of_lt (hpos a ha)

/-- C3: with no expected course the projection is the current GPA when
present and 0 when absent; with expected courses, a present current GPA
and a positive current credit value give the credit-weighted blend of the
current GPA and the unweighted future GPA; and in every other case —
current GPA or current credits missing or unparseable, or current credits
not positive — the projection is the future GPA alone, never zero. -/
theorem calculateProjectedGPA_spec (currentGPA currentCredits : Option ℚ)
    (courses : List PredictionCourse) (scale : GPAScale)
    (hpos : ∀ c ∈ courses, 0 < c.credits) :
    (courses = [] →
      calculateProjectedGPA currentGPA currentCredits courses scale
        = currentGPA.getD 0) ∧
    (∀ g cr, currentGPA = some g → currentCredits = some cr → 0 < cr →
      courses ≠ [] →
      calculateProjectedGPA currentGPA currentCredits courses scale
        = (g * cr + futureGPAOf courses scale * futureCreditsOf courses)
          / (cr + futureCreditsOf courses)) ∧
    ((currentGPA = none ∨ currentCredits = none ∨
        ∃ cr, currentCredits = some cr ∧ ¬0 < cr) →
      courses ≠ [] →
      calculateProjectedGPA currentGPA currentCredits courses scale
        = futureGPAOf courses scale) := by
  refine ⟨?_, ?_, ?_⟩
  · intro h
    subst h
    cases currentGPA <;> simp [calculateProjectedGPA]
  · intro g cr hg hcr hcrpos hne
    subst hg
    subst hcr
    have hfc : 0 ≤ futureCreditsOf courses := futureCredits_nonneg courses hpos
    have htot : 0 < cr + futureCreditsOf courses := by linarith
    simp only [calculateProjectedGPA, if_neg hne, foldl_credits, zero_add,
      futureCredits_eq, if_pos hcrpos, if_pos htot, futureGPAOf]
  · intro hcase hne
    rcases hcase with hg | hc | ⟨cr, hc, hcr⟩
    · subst hg
      cases currentCredits <;>
        simp [calculateProjectedGPA, if_neg hne, futureGPAOf]
    · subst hc
      cases currentGPA <;>
        simp [calculateProjectedGPA, if_neg hne, futureGPAOf]
    · subst hc
      cases currentGPA with
      | none => simp [calculateProjectedGPA, if_neg hne, futureGPAOf]
      | some g =>
        simp [calculateProjectedGPA, if_neg hne, if_neg hcr, futureGPAOf]

/-- Witness for C3 matching the blend scenario of the spec, value 64/21. -/
theorem calculateProjectedGPA_spec_witness :
    calculateProjectedGPA (some 3) (some 60) [predictionCourseA3] GPAScale.US
      = 64/21 := by
  have hpos : ∀ c ∈ [predictionCourseA3], 0 < c.credits := by
    intro c hc
    simp only [List.mem_singleton] at hc
    subst hc
    norm_num [predictionCourseA3]
  have h := (calculateProjectedGPA_spec (some 3) (some 60) [predictionCourseA3]
      GPAScale.US hpos).2.1 3 60 rfl rfl (by norm_num) (by simp)
  rw [h]
  have hg : futureGPAOf [predictionCourseA3] GPAScale.US = 4 := by
    simp only [futureGPAOf, List.map_cons, List.map_nil, PredictionCourse.toCourse,
      predictionCourseA3, calculateGPA, gradePoint, SCALE_CONFIG, US_GRADE_POINTS,
      List.foldl, reduceCtorEq, if_false]
    norm_num
  have hc : futureCreditsOf [predictionCourseA3] = 3 := by
    simp [futureCreditsOf, predictionCourseA3]
  rw [hg, hc]
  norm_num

end GPAApp
